import Mathlib

/-!
Verification of the Telugu text-classification backend (`src/Backend/app.py`)
against its natural-language specification.

The FastAPI service is shallowly embedded as pure Lean functions:

* the process-wide `models` dict becomes the `Models` structure (a field per
  possible key, `Option` marking presence);
* model artifacts, which `get_predictions` dispatches on by duck typing,
  become the `Artifact` inductive (an object with `predict_proba`, a raw
  numpy probability array, a callable that succeeds, a callable that raises,
  or a `predict_proba` object whose call raises);
* probabilities are `ℚ` (the Python floats at issue are small decimal
  literals and elementwise means of them);
* fallible Python calls (vectorizer transform, predict) return `Option`;
* the `/classify` handler `classify_text` becomes `classify`, returning
  `Response.ok` for HTTP 200 or `Response.err s` for an HTTP error status.
-/

namespace TeluguClassifier

/-- Feature vectors produced by the TF-IDF vectorizer.  Their contents are
never inspected by the backend code under verification, only passed on to the
model artifacts, so any carrier works; we use `List ℚ`. -/
abbrev Vec := List ℚ

/-- The `CATEGORIES` table of `app.py` (code, telugu name, english name), in
the source's insertion order. -/
def CATEGORIES : List (String × String × String) :=
  [("business", "వ్యాపారం", "Business"),
   ("editorial", "సంపాదకీయం", "Editorial"),
   ("entertainment", "వినోదం", "Entertainment"),
   ("nation", "జాతీయం", "Nation"),
   ("sports", "క్రీడలు", "Sports")]

/-- `CATEGORIES.keys()` in insertion order. -/
def categoryCodes : List String :=
  ["business", "editorial", "entertainment", "nation", "sports"]

/-- `CATEGORIES.get(category, {'english': category, 'telugu': category})`,
returning the pair (english, telugu). -/
def categoryLookup (code : String) : String × String :=
  match CATEGORIES.find? (fun p => p.1 == code) with
  | some (_, tel, eng) => (eng, tel)
  | none => (code, code)

/-- A model artifact as dispatched on by `get_predictions` (duck typing):
it may expose `predict_proba` (returning row 0 of its result, or raising),
be a raw numpy array of precomputed probabilities, or be callable
(succeeding with an array, or raising). -/
inductive Artifact where
  | predictProba (f : Vec → List ℚ)
  | predictFail
  | ndarray (arr : List ℚ)
  | callableOk (f : Vec → List ℚ)
  | callableFail

/-- The process-wide `models` dict.  Each field is one of the keys the code
ever stores; `none` means the key is absent.  The vectorizer's `transform`
is modelled as a function to `Option Vec` (`none` = the call raises). -/
structure Models where
  vectorizer : Option (List Char → Option Vec)
  label_encoder : Option (List String)
  muril : Option Artifact
  bilstm : Option Artifact
  lgb : Option Artifact

/-- Presence bits of the five keys, in load order.  `len(models)` is the
count of `true` entries. -/
def keysPresent (m : Models) : List Bool :=
  [m.vectorizer.isSome, m.label_encoder.isSome,
   m.muril.isSome, m.bilstm.isSome, m.lgb.isSome]

/-- `len(models)`. -/
def countLoaded (m : Models) : Nat := (keysPresent m).count true

/-- The `models_loaded` field of `GET /`: `len(models) >= 2`. -/
def root_models_loaded (m : Models) : Bool := decide (2 ≤ countLoaded m)

/-- The `models_loaded` field of `GET /health`: `len(models) >= 2`. -/
def health_models_loaded (m : Models) : Bool := decide (2 ≤ countLoaded m)

/-- Registry states reachable from the startup `load_models`: the loads run
in the fixed order vectorizer, label encoder, muril, bilstm, lgb inside one
`try`, so a failure leaves exactly a prefix of that order populated. -/
abbrev ReachableReg (m : Models) : Prop :=
  keysPresent m ∈
    [[false, false, false, false, false],
     [true, false, false, false, false],
     [true, true, false, false, false],
     [true, true, true, false, false],
     [true, true, true, true, false],
     [true, true, true, true, true]]

/-- Whitespace for Python's `str.strip()` (the ASCII whitespace characters;
the inputs at issue contain no exotic Unicode space). -/
def pyIsSpace (c : Char) : Bool :=
  c == ' ' || c == '\t' || c == '\n' || c == '\r' ||
    c == Char.ofNat 11 || c == Char.ofNat 12

/-- Python `text.strip()`: drop leading and trailing whitespace. -/
def pyStrip (s : List Char) : List Char :=
  ((s.dropWhile pyIsSpace).reverse.dropWhile pyIsSpace).reverse

/-- Does `hay` start with `needle`? -/
def listStarts : List Char → List Char → Bool
  | [], _ => true
  | _ :: _, [] => false
  | a :: as, b :: bs => a == b && listStarts as bs

/-- Python's substring test `needle in hay`. -/
def hasSub (needle : List Char) : List Char → Bool
  | [] => needle.isEmpty
  | c :: t => listStarts needle (c :: t) || hasSub needle (t)

/-- `any(word in text_lower for word in words)`. -/
def containsAny (words : List String) (text_lower : List Char) : Bool :=
  words.any (fun w => hasSub w.data text_lower)

/-- Sports keywords of the fallback heuristic (line 132). -/
def sports_words : List String := ["క్రీడ", "జట్టు", "గెలిచ", "ఆడ", "మ్యాచ్"]

/-- Entertainment keywords of the fallback heuristic (line 135). -/
def entertainment_words : List String := ["సినిమా", "నటుడు", "నటి", "చిత్రం", "వినోద"]

/-- Business keywords of the fallback heuristic (line 138). -/
def business_words : List String := ["వ్యాపార", "బిజినెస్", "కంపెనీ", "మార్కెట్"]

/-- Editorial keywords of the fallback heuristic (line 141). -/
def editorial_words : List String := ["సంపాదక", "అభిప్రాయ"]

/-- The category/confidence chosen by the fallback keyword chain
(lines 132-146 of `app.py`), given the lowercased stripped text. -/
def fallbackPick (text_lower : List Char) : String × ℚ :=
  if containsAny sports_words text_lower then ("sports", 0.85)
  else if containsAny entertainment_words text_lower then ("entertainment", 0.80)
  else if containsAny business_words text_lower then ("business", 0.75)
  else if containsAny editorial_words text_lower then ("editorial", 0.70)
  else ("nation", 0.65)

/-- The JSON body of a successful `/classify` response. -/
structure ClassificationResult where
  category_english : String
  category_telugu : String
  confidence : ℚ
  all_probabilities : List (String × ℚ)
deriving DecidableEq

/-- Outcome of `/classify`: a 200 body or an HTTP error status. -/
inductive Response where
  | ok (result : ClassificationResult)
  | err (status : Nat)
deriving DecidableEq

/-- The fallback branch of `classify_text` (lines 127-150 together with the
shared response construction of lines 168-179): keyword pick, the
`{cat: 0.05 ...}` dict with the picked category overwritten, and the
`CATEGORIES` display lookup. -/
def fallbackResult (text : List Char) : ClassificationResult :=
  { category_english := (categoryLookup (fallbackPick (text.map Char.toLower)).1).1
    category_telugu := (categoryLookup (fallbackPick (text.map Char.toLower)).1).2
    confidence := (fallbackPick (text.map Char.toLower)).2
    all_probabilities :=
      categoryCodes.map
        (fun c => (c, if c == (fallbackPick (text.map Char.toLower)).1
                      then (fallbackPick (text.map Char.toLower)).2 else 0.05)) }

/-- `get_predictions(model, text_vector)` of `app.py`: duck-typed dispatch.
`none` models an exception escaping to the caller (the `predict_proba`
branch has no local handler); a raising callable is caught locally and
replaced by `np.ones(num_classes)/num_classes`.  `classes` stands for
`models['label_encoder'].classes_`. -/
def get_predictions (classes : List String) (model : Artifact) (text_vector : Vec) :
    Option (List ℚ) :=
  match model with
  | .predictProba f => some (f text_vector)
  | .predictFail => none
  | .ndarray arr => some arr
  | .callableOk f => some (f text_vector)
  | .callableFail => some (List.replicate classes.length ((1 : ℚ) / (classes.length : ℚ)))

/-- One iteration of the prediction loop (lines 115-124): call
`get_predictions`, keep the vector only if its length matches
`num_classes`; an escaping exception (`none`) skips the model. -/
def attempt (classes : List String) (model : Artifact) (text_vector : Vec) :
    Option (List ℚ) :=
  match get_predictions classes model text_vector with
  | none => none
  | some pred => if pred.length = classes.length then some pred else none

/-- The `all_predictions` list collected by the loop over
`['muril', 'bilstm', 'lgb']`. -/
def collectPreds (classes : List String) (arts : List Artifact) (text_vector : Vec) :
    List (List ℚ) :=
  arts.filterMap (fun a => attempt classes a text_vector)

/-- `np.mean(all_predictions, axis=0)`: the column-wise mean of a list of
rows, every row having length `n` (checked by the caller). -/
def vecMean (n : Nat) (preds : List (List ℚ)) : List ℚ :=
  (List.range n).map (fun i => (preds.map (fun p => p.getD i 0)).sum / (preds.length : ℚ))

/-- Is `x` an upper bound of `l`?  (`np.argmax` picks the first index whose
value is maximal.) -/
def isMaxIn (l : List ℚ) (x : ℚ) : Bool := l.all (fun y => decide (y ≤ x))

/-- `np.argmax`: index of the first occurrence of the maximum. -/
def argmax (l : List ℚ) : Nat := l.findIdx (fun x => isMaxIn l x)

/-- The ensemble branch of `classify_text` (lines 152-166 with the shared
response construction): mean, argmax, `inverse_transform` (indexing the
class list; an out-of-range index raises and surfaces as a 500), zip of
classes with probabilities. -/
def ensembleResult (classes : List String) (preds : List (List ℚ)) : Response :=
  match classes[argmax (vecMean classes.length preds)]? with
  | none => Response.err 500
  | some category =>
    Response.ok
      { category_english := (categoryLookup category).1
        category_telugu := (categoryLookup category).2
        confidence := (vecMean classes.length preds).getD (argmax (vecMean classes.length preds)) 0
        all_probabilities := List.zip classes (vecMean classes.length preds) }

/-- The `/classify` handler `classify_text`: readiness check (503), strip
and empty check (400), vectorization (a raising transform surfaces as 500),
the per-model prediction loop, then the fallback or ensemble branch. -/
def classify (m : Models) (input : String) : Response :=
  match m.vectorizer, m.label_encoder with
  | some vectorize, some classes =>
    if (pyStrip input.data).isEmpty then Response.err 400
    else
      match vectorize (pyStrip input.data) with
      | none => Response.err 500
      | some text_vector =>
        if (collectPreds classes ([m.muril, m.bilstm, m.lgb].filterMap id)
              text_vector).isEmpty
        then Response.ok (fallbackResult (pyStrip input.data))
        else ensembleResult classes
          (collectPreds classes ([m.muril, m.bilstm, m.lgb].filterMap id) text_vector)
  | _, _ => Response.err 503

/-- The fallback classifier transcribed from the specification's words, to
be compared with the code path: "apply a fixed, ordered keyword-containment
heuristic against hardcoded native-script substrings, in priority order
sports terms, entertainment terms, business terms, editorial terms, default
nation; assign a fixed confidence per matched category (0.85, 0.80, 0.75,
0.70, 0.65 respectively) and a uniform small residual probability (0.05) to
every other category", the fallback path "explicitly constructs a complete
five-entry mapping", and labels are decorated via the static category
table. -/
def fallbackSpec (text : List Char) : ClassificationResult :=
  let matched : String × ℚ :=
    if containsAny sports_words (text.map Char.toLower) then ("sports", 0.85)
    else if containsAny entertainment_words (text.map Char.toLower) then ("entertainment", 0.80)
    else if containsAny business_words (text.map Char.toLower) then ("business", 0.75)
    else if containsAny editorial_words (text.map Char.toLower) then ("editorial", 0.70)
    else ("nation", 0.65)
  { category_english := (categoryLookup matched.1).1
    category_telugu := (categoryLookup matched.1).2
    confidence := matched.2
    all_probabilities :=
      [("business", if "business" == matched.1 then matched.2 else 0.05),
       ("editorial", if "editorial" == matched.1 then matched.2 else 0.05),
       ("entertainment", if "entertainment" == matched.1 then matched.2 else 0.05),
       ("nation", if "nation" == matched.1 then matched.2 else 0.05),
       ("sports", if "sports" == matched.1 then matched.2 else 0.05)] }

/-- A probability vector: every entry lies in `[0, 1]`. -/
def probVec (p : List ℚ) : Prop := ∀ x ∈ p, 0 ≤ x ∧ x ≤ 1

/-- An artifact whose every produced prediction vector is a probability
vector (the spec's reading of a classifier artifact). -/
def goodArtifact (classes : List String) (a : Artifact) : Prop :=
  ∀ v q, get_predictions classes a v = some q → probVec q

/-- A registry with every artifact missing. -/
def emptyModels : Models := ⟨none, none, none, none, none⟩

/-- A ready registry with no classifier artifacts at all: every request
reaches the fallback heuristic. -/
def cfgNoModels : Models :=
  { vectorizer := some (fun _ => some []), label_encoder := some categoryCodes,
    muril := none, bilstm := none, lgb := none }

/-- The spec's ensemble scenario: two mock classifiers returning the fixed
probability vectors `[0.1, 0.1, 0.1, 0.1, 0.6]` and `[0.2, 0.2, 0.2, 0.2, 0.2]`. -/
def cfg7 : Models :=
  { vectorizer := some (fun _ => some [])
    label_encoder := some categoryCodes
    muril := some (Artifact.predictProba (fun _ => [0.1, 0.1, 0.1, 0.1, 0.6]))
    bilstm := some (Artifact.predictProba (fun _ => [0.2, 0.2, 0.2, 0.2, 0.2]))
    lgb := none }

/-- The `/classify` body produced by `cfg7` on any non-keyword text. -/
def res7 : ClassificationResult :=
  { category_english := "Sports", category_telugu := "క్రీడలు", confidence := 0.4,
    all_probabilities := [("business", 0.15), ("editorial", 0.15), ("entertainment", 0.15),
      ("nation", 0.15), ("sports", 0.4)] }

/-- A ready registry whose only classifier artifact is a callable that
raises: `get_predictions` swallows the failure and returns the uniform
vector. -/
def cfgU : Models :=
  { vectorizer := some (fun _ => some []), label_encoder := some categoryCodes,
    muril := some Artifact.callableFail, bilstm := none, lgb := none }

/-- The `/classify` body produced by `cfgU`: the five-way tie at `1/5`. -/
def resU : ClassificationResult :=
  { category_english := "Business", category_telugu := "వ్యాపారం", confidence := 1/5,
    all_probabilities := [("business", 1/5), ("editorial", 1/5), ("entertainment", 1/5),
      ("nation", 1/5), ("sports", 1/5)] }

/-- A ready registry whose only classifier artifact is a raw array that is
not a probability distribution. -/
def cfgB : Models :=
  { vectorizer := some (fun _ => some []), label_encoder := some categoryCodes,
    muril := some (Artifact.ndarray [2, -1, 0, 0, 0]), bilstm := none, lgb := none }

/-- The `/classify` body produced by `cfgB`: values escape `[0, 1]`. -/
def resB : ClassificationResult :=
  { category_english := "Business", category_telugu := "వ్యాపారం", confidence := 2,
    all_probabilities := [("business", 2), ("editorial", -1), ("entertainment", 0),
      ("nation", 0), ("sports", 0)] }

/-- A registry holding only the two classifier keys `muril` and `bilstm`
(no vectorizer, no label encoder). -/
def regBad : Models :=
  { vectorizer := none, label_encoder := none,
    muril := some (Artifact.ndarray []), bilstm := some (Artifact.ndarray []), lgb := none }

/-- A fully loaded registry. -/
def regFull : Models :=
  { vectorizer := some (fun _ => some []), label_encoder := some categoryCodes,
    muril := some (Artifact.ndarray []), bilstm := some (Artifact.ndarray []),
    lgb := some (Artifact.ndarray []) }

/-- When the vectorizer or the label encoder key is missing, `classify`
answers 503 before looking at anything else. -/
lemma classify_of_not_ready (m : Models) (input : String)
    (h : m.vectorizer = none ∨ m.label_encoder = none) :
    classify m input = Response.err 503 := by
  obtain ⟨v, le, mu, bi, lg⟩ := m
  rcases h with h | h <;> simp only at h <;> subst h <;>
    first
      | rfl
      | (cases v <;> rfl)

/-- Every non-empty list of rationals has a maximal element. -/
lemma exists_max_mem (l : List ℚ) (h : l ≠ []) : ∃ x ∈ l, ∀ y ∈ l, y ≤ x := by
  induction l with
  | nil => exact absurd rfl h
  | cons a t ih =>
    cases t with
    | nil =>
      refine ⟨a, List.mem_cons_self a [], ?_⟩
      intro y hy
      rw [List.mem_singleton] at hy
      exact hy.le
    | cons b u =>
      obtain ⟨x, hxmem, hxmax⟩ := ih (by simp)
      rcases le_total a x with hax | hxa
      · refine ⟨x, List.mem_cons_of_mem a hxmem, ?_⟩
        intro y hy
        rcases List.mem_cons.mp hy with rfl | hy
        · exact hax
        · exact hxmax y hy
      · refine ⟨a, List.mem_cons_self a _, ?_⟩
        intro y hy
        rcases List.mem_cons.mp hy with rfl | hy
        · exact le_rfl
        · exact le_trans (hxmax y hy) hxa

/-- `np.argmax` of a non-empty list is a valid index. -/
lemma argmax_lt_length (l : List ℚ) (h : l ≠ []) : argmax l < l.length := by
  obtain ⟨x, hx, hmax⟩ := exists_max_mem l h
  refine List.findIdx_lt_length_of_exists ⟨x, hx, ?_⟩
  simp only [isMaxIn, List.all_eq_true, decide_eq_true_eq]
  exact hmax

/-- The entry at `np.argmax` bounds every entry of the list. -/
lemma le_getD_argmax (l : List ℚ) (h : l ≠ []) :
    ∀ x ∈ l, x ≤ l.getD (argmax l) 0 := by
  have hlt : argmax l < l.length := argmax_lt_length l h
  have hp := @List.findIdx_getElem _ (fun x => isMaxIn l x) l hlt
  simp only [isMaxIn, List.all_eq_true, decide_eq_true_eq] at hp
  intro x hx
  rw [List.getD_eq_getElem _ _ hlt]
  exact hp x hx

/-- The column-wise mean has exactly `n` entries. -/
lemma length_vecMean (n : Nat) (preds : List (List ℚ)) :
    (vecMean n preds).length = n := by
  simp [vecMean]

/-- `getD` of a probability vector stays in `[0, 1]` (out-of-range reads
give the default 0). -/
lemma getD_bounds (p : List ℚ) (hp : probVec p) (i : Nat) :
    0 ≤ p.getD i 0 ∧ p.getD i 0 ≤ 1 := by
  by_cases h : i < p.length
  · rw [List.getD_eq_getElem _ _ h]
    exact hp _ (List.getElem_mem h)
  · rw [List.getD_eq_default _ _ (Nat.le_of_not_lt h)]
    exact ⟨le_rfl, by norm_num⟩

/-- The column-wise mean of a non-empty family of probability vectors is a
probability vector. -/
lemma probVec_vecMean (n : Nat) (preds : List (List ℚ)) (hne : preds ≠ [])
    (hp : ∀ p ∈ preds, probVec p) : probVec (vecMean n preds) := by
  intro x hx
  simp only [vecMean, List.mem_map, List.mem_range] at hx
  obtain ⟨i, _, rfl⟩ := hx
  have hk : (0 : ℚ) < (preds.length : ℚ) := by
    exact_mod_cast List.length_pos.mpr hne
  constructor
  · refine div_nonneg (List.sum_nonneg ?_) hk.le
    intro q hq
    simp only [List.mem_map] at hq
    obtain ⟨p, hpmem, rfl⟩ := hq
    exact (getD_bounds p (hp p hpmem) i).1
  · rw [div_le_one hk]
    have hb : (preds.map (fun p => p.getD i 0)).sum
        ≤ (preds.map (fun p => p.getD i 0)).length • (1 : ℚ) := by
      refine List.sum_le_card_nsmul _ 1 ?_
      intro q hq
      simp only [List.mem_map] at hq
      obtain ⟨p, hpmem, rfl⟩ := hq
      exact (getD_bounds p (hp p hpmem) i).2
    simpa [nsmul_eq_mul] using hb

/-- The fallback keyword chain picks one of five fixed
category/confidence pairs. -/
lemma fallbackPick_mem (tl : List Char) :
    fallbackPick tl ∈ [("sports", (0.85 : ℚ)), ("entertainment", 0.80),
      ("business", 0.75), ("editorial", 0.70), ("nation", 0.65)] := by
  unfold fallbackPick
  repeat' split
  all_goals simp

/-- All facts needed about the fallback probability table, for an
arbitrary pick from the five fixed pairs. -/
lemma fallback_probs_facts (pk : String × ℚ)
    (hpk : pk ∈ [("sports", (0.85 : ℚ)), ("entertainment", 0.80), ("business", 0.75),
      ("editorial", 0.70), ("nation", 0.65)]) :
    (∀ p ∈ categoryCodes.map (fun c => (c, if c == pk.1 then pk.2 else (0.05 : ℚ))),
        p.2 ≤ pk.2) ∧
    (∃ p ∈ categoryCodes.map (fun c => (c, if c == pk.1 then pk.2 else (0.05 : ℚ))),
        p.2 = pk.2) ∧
    ((categoryCodes.map (fun c => (c, if c == pk.1 then pk.2 else (0.05 : ℚ)))).countP
        (fun p => decide (p.2 = pk.2)) = 1) ∧
    ((categoryCodes.map (fun c => (c, if c == pk.1 then pk.2 else (0.05 : ℚ)))).map Prod.fst
        = categoryCodes) ∧
    (∀ p ∈ categoryCodes.map (fun c => (c, if c == pk.1 then pk.2 else (0.05 : ℚ))),
        0 ≤ p.2 ∧ p.2 ≤ 1) := by
  simp only [List.mem_cons, List.not_mem_nil, or_false] at hpk
  rcases hpk with rfl | rfl | rfl | rfl | rfl <;>
    exact of_decide_eq_true (by with_unfolding_all rfl)

/-- In the fallback result, the confidence bounds every probability and is
attained. -/
lemma fallbackResult_max (text : List Char) :
    (∀ p ∈ (fallbackResult text).all_probabilities, p.2 ≤ (fallbackResult text).confidence) ∧
    ∃ p ∈ (fallbackResult text).all_probabilities, p.2 = (fallbackResult text).confidence := by
  have h := fallback_probs_facts _ (fallbackPick_mem (text.map Char.toLower))
  exact ⟨h.1, h.2.1⟩

/-- In the fallback result, exactly one category's probability equals the
confidence. -/
lemma fallbackResult_unique_max (text : List Char) :
    (fallbackResult text).all_probabilities.countP
      (fun p => decide (p.2 = (fallbackResult text).confidence)) = 1 :=
  (fallback_probs_facts _ (fallbackPick_mem (text.map Char.toLower))).2.2.1

/-- The fallback result's keys are exactly the configured category codes
and its values lie in `[0, 1]`. -/
lemma fallbackResult_bounds (text : List Char) :
    (fallbackResult text).all_probabilities.map Prod.fst = categoryCodes ∧
    ∀ p ∈ (fallbackResult text).all_probabilities, 0 ≤ p.2 ∧ p.2 ≤ 1 := by
  have h := fallback_probs_facts _ (fallbackPick_mem (text.map Char.toLower))
  exact ⟨h.2.2.2.1, h.2.2.2.2⟩

/-- The code's fallback branch computes exactly the specification's
fallback classifier. -/
lemma fallbackResult_eq_spec (text : List Char) :
    fallbackResult text = fallbackSpec text := by
  unfold fallbackResult fallbackSpec fallbackPick
  by_cases h1 : containsAny sports_words (text.map Char.toLower) = true
  · simp only [h1, if_true]; with_unfolding_all rfl
  · simp only [eq_false_of_ne_true h1, if_false]
    by_cases h2 : containsAny entertainment_words (text.map Char.toLower) = true
    · simp only [h2, if_true]; with_unfolding_all rfl
    · simp only [eq_false_of_ne_true h2, if_false]
      by_cases h3 : containsAny business_words (text.map Char.toLower) = true
      · simp only [h3, if_true]; with_unfolding_all rfl
      · simp only [eq_false_of_ne_true h3, if_false]
        by_cases h4 : containsAny editorial_words (text.map Char.toLower) = true
        · simp only [h4, if_true]; with_unfolding_all rfl
        · simp only [eq_false_of_ne_true h4, if_false]; with_unfolding_all rfl

/-- Inversion for a 200 response of `classify`: the body comes from the
fallback branch or from the ensemble branch over the collected
predictions. -/
lemma classify_ok_cases (m : Models) (input : String) (r : ClassificationResult)
    (h : classify m input = Response.ok r) :
    r = fallbackResult (pyStrip input.data) ∨
    ∃ classes text_vector,
      m.label_encoder = some classes ∧
      (collectPreds classes ([m.muril, m.bilstm, m.lgb].filterMap id)
        text_vector).isEmpty = false ∧
      ensembleResult classes
        (collectPreds classes ([m.muril, m.bilstm, m.lgb].filterMap id) text_vector)
        = Response.ok r := by
  obtain ⟨v, le, mu, bi, lg⟩ := m
  unfold classify at h
  cases v with
  | none => simp at h
  | some vectorize =>
    cases le with
    | none => simp at h
    | some classes =>
      simp only at h
      split at h
      · simp at h
      · split at h
        · simp at h
        · split at h
          · left
            injection h with h2
            exact h2.symm
          · right
            rename_i hne
            exact ⟨classes, _, rfl, Bool.of_not_eq_true hne, h⟩

/-- Every vector collected by the prediction loop from well-behaved
artifacts is a probability vector. -/
lemma probVec_of_mem_collectPreds (classes : List String) (arts : List Artifact)
    (text_vector : Vec) (hgood : ∀ a ∈ arts, goodArtifact classes a) :
    ∀ q ∈ collectPreds classes arts text_vector, probVec q := by
  intro q hq
  simp only [collectPreds, List.mem_filterMap] at hq
  obtain ⟨a, ha, hat⟩ := hq
  unfold attempt at hat
  split at hat
  · simp at hat
  · rename_i pred heq
    split at hat
    · injection hat with hat
      subst hat
      exact hgood a ha text_vector pred heq
    · simp at hat

/-- In a 200 response of the ensemble branch, the confidence bounds every
probability and is attained. -/
lemma ensembleResult_ok (classes : List String) (preds : List (List ℚ))
    (r : ClassificationResult) (h : ensembleResult classes preds = Response.ok r) :
    (∀ p ∈ r.all_probabilities, p.2 ≤ r.confidence) ∧
    ∃ p ∈ r.all_probabilities, p.2 = r.confidence := by
  unfold ensembleResult at h
  split at h
  · simp at h
  · rename_i category heq
    injection h with h2
    subst h2
    have hlen : (vecMean classes.length preds).length = classes.length :=
      length_vecMean classes.length preds
    have hidxlt : argmax (vecMean classes.length preds) < classes.length := by
      have := List.getElem?_eq_some.mp heq
      exact this.1
    have hmpne : vecMean classes.length preds ≠ [] := by
      apply List.ne_nil_of_length_pos
      omega
    have hmax := le_getD_argmax (vecMean classes.length preds) hmpne
    constructor
    · rintro ⟨a, b⟩ hab
      exact hmax b (List.of_mem_zip hab).2
    · have hidxlt2 : argmax (vecMean classes.length preds)
          < (vecMean classes.length preds).length := by omega
      have hidxzip : argmax (vecMean classes.length preds)
          < (List.zip classes (vecMean classes.length preds)).length := by
        simp [List.length_zip]
        omega
      refine ⟨(List.zip classes (vecMean classes.length preds)).get
          ⟨argmax (vecMean classes.length preds), hidxzip⟩, List.get_mem _ _ _, ?_⟩
      rw [List.get_eq_getElem, List.getElem_zip]
      rw [List.getD_eq_getElem _ _ hidxlt2]

/-- C6 (confirmed): while the registry lacks the vectorizer or the label
encoder, `/classify` answers 503 no matter what the request's text is. -/
theorem C6_not_ready (m : Models) (input : String)
    (h : m.vectorizer = none ∨ m.label_encoder = none) :
    classify m input = Response.err 503 :=
  classify_of_not_ready m input h

/-- Witness for `C6_not_ready` at a concrete registry and text. -/
theorem C6_not_ready_witness : classify emptyModels "hello" = Response.err 503 :=
  C6_not_ready emptyModels "hello" (Or.inl rfl)

/-- C9 (confirmed): the readiness check precedes the empty-text check, so a
request with empty (here: whitespace-only) text sent to an unready registry
is answered 503. It never receives a 400. -/
theorem C9_ready_check_first (m : Models) (input : String)
    (h : m.vectorizer = none ∨ m.label_encoder = none)
    (_he : (pyStrip input.data).isEmpty = true) :
    classify m input = Response.err 503 ∧ classify m input ≠ Response.err 400 := by
  have hc := classify_of_not_ready m input h
  exact ⟨hc, by simp [hc]⟩

/-- Witness for `C9_ready_check_first`: whitespace-only text on an unready
registry. -/
theorem C9_ready_check_first_witness :
    classify emptyModels "  " = Response.err 503 ∧
    classify emptyModels "  " ≠ Response.err 400 :=
  C9_ready_check_first emptyModels "  " (Or.inr rfl) (by with_unfolding_all rfl)

/-- C5 (corrected): on a ready registry, empty or whitespace-only text is
rejected with 400, and the vectorizer is never invoked on it — replacing
the vectorizer by one whose `transform` always raises (which would surface
as a 500 if it ran) leaves the response 400.  The original claim's "every
request" fails when the registry is not ready: see `C5_counterexample`. -/
theorem C5_empty_text (m : Models) (vectorize : List Char → Option Vec)
    (classes : List String) (input : String)
    (hv : m.vectorizer = some vectorize) (hl : m.label_encoder = some classes)
    (he : (pyStrip input.data).isEmpty = true) :
    classify m input = Response.err 400 ∧
    classify { m with vectorizer := some (fun _ => none) } input = Response.err 400 := by
  obtain ⟨v, le, mu, bi, lg⟩ := m
  simp only at hv hl
  subst hv; subst hl
  constructor <;> simp [classify, he]

/-- Witness for `C5_empty_text` at a concrete ready registry and
whitespace-only text. -/
theorem C5_empty_text_witness :
    classify cfgNoModels "   " = Response.err 400 ∧
    classify { cfgNoModels with vectorizer := some (fun _ => none) } "   "
      = Response.err 400 :=
  C5_empty_text cfgNoModels (fun _ => some []) categoryCodes "   " rfl rfl
    (by with_unfolding_all rfl)

/-- Counterexample to C5 as stated: a whitespace-only request sent while
the registry is not ready is answered 503, not 400. -/
theorem C5_counterexample :
    classify emptyModels "   " = Response.err 503 ∧
    classify emptyModels "   " ≠ Response.err 400 := by
  have h : classify emptyModels "   " = Response.err 503 :=
    classify_of_not_ready emptyModels "   " (Or.inl rfl)
  exact ⟨h, by simp [h]⟩

/-- C8 (corrected, amended): on every registry state reachable from the
startup loader — a prefix of the load order — the `models_loaded` flag of
`GET /` and `GET /health` (`len(models) >= 2`) agrees with "vectorizer and
label encoder both present".  On arbitrary registry states the two differ:
see `C8_counterexample`. -/
theorem C8_models_loaded (m : Models) (h : ReachableReg m) :
    root_models_loaded m = (m.vectorizer.isSome && m.label_encoder.isSome) ∧
    health_models_loaded m = (m.vectorizer.isSome && m.label_encoder.isSome) := by
  obtain ⟨v, le, mu, bi, lg⟩ := m
  cases v <;> cases le <;> cases mu <;> cases bi <;> cases lg <;>
    first
      | exact ⟨rfl, rfl⟩
      | simp [ReachableReg, keysPresent] at h

/-- Witness for `C8_models_loaded` at the fully loaded registry. -/
theorem C8_models_loaded_witness :
    root_models_loaded regFull = (regFull.vectorizer.isSome && regFull.label_encoder.isSome) ∧
    health_models_loaded regFull = (regFull.vectorizer.isSome && regFull.label_encoder.isSome) :=
  C8_models_loaded regFull (by decide)

/-- Counterexample to C8 as stated: a registry holding only the two
classifier keys `muril` and `bilstm` reports `models_loaded = true`
although the vectorizer (and label encoder) are absent. -/
theorem C8_counterexample :
    root_models_loaded regBad = true ∧ health_models_loaded regBad = true ∧
    regBad.vectorizer.isSome = false ∧ regBad.label_encoder.isSome = false := by
  refine ⟨rfl, rfl, rfl, rfl⟩

/-- C1 (corrected, amended): in every 200 response the returned confidence
equals the maximum entry of `all_probabilities` (it bounds every entry and
is attained), and in the fallback branch exactly one category attains that
maximum; in the ensemble branch several categories may tie at the maximum,
so the original "exactly one" fails — see `C1_counterexample`. -/
theorem C1_confidence_is_max (m : Models) (input : String) (r : ClassificationResult)
    (h : classify m input = Response.ok r) :
    ((∀ p ∈ r.all_probabilities, p.2 ≤ r.confidence) ∧
     ∃ p ∈ r.all_probabilities, p.2 = r.confidence) ∧
    (fallbackResult (pyStrip input.data)).all_probabilities.countP
      (fun p => decide (p.2 = (fallbackResult (pyStrip input.data)).confidence)) = 1 := by
  refine ⟨?_, fallbackResult_unique_max (pyStrip input.data)⟩
  rcases classify_ok_cases m input r h with rfl | ⟨classes, text_vector, _, _, hok⟩
  · exact fallbackResult_max _
  · exact ensembleResult_ok classes _ r hok

/-- Witness for `C1_confidence_is_max` at a concrete ensemble response. -/
theorem C1_confidence_is_max_witness :
    ((∀ p ∈ res7.all_probabilities, p.2 ≤ res7.confidence) ∧
     ∃ p ∈ res7.all_probabilities, p.2 = res7.confidence) ∧
    (fallbackResult (pyStrip "abc".data)).all_probabilities.countP
      (fun p => decide (p.2 = (fallbackResult (pyStrip "abc".data)).confidence)) = 1 :=
  C1_confidence_is_max cfg7 "abc" res7 (by with_unfolding_all rfl)

/-- Counterexample to C1 as stated: with one raising-callable artifact the
ensemble is the uniform vector, a 200 response in which all five
categories' probabilities equal the maximum, not exactly one. -/
theorem C1_counterexample :
    classify cfgU "abc" = Response.ok resU ∧
    resU.all_probabilities.countP (fun p => decide (p.2 = resU.confidence)) = 5 :=
  ⟨by with_unfolding_all rfl, by with_unfolding_all rfl⟩

/-- C2 (corrected, amended): in every 200 response computed while the label
encoder's class list equals the configured five category codes and every
classifier artifact only ever emits probability vectors (entries in
`[0, 1]`), the `all_probabilities` keys are exactly the configured five
categories, in order, and every value lies in `[0, 1]`.  The fallback
branch needs neither hypothesis; the ensemble branch needs both — see
`C2_counterexample` for an artifact emitting values outside `[0, 1]`. -/
theorem C2_probability_table (m : Models) (input : String) (r : ClassificationResult)
    (hcl : m.label_encoder = some categoryCodes)
    (hgood : ∀ a ∈ [m.muril, m.bilstm, m.lgb].filterMap id, goodArtifact categoryCodes a)
    (h : classify m input = Response.ok r) :
    r.all_probabilities.map Prod.fst = categoryCodes ∧
    ∀ p ∈ r.all_probabilities, 0 ≤ p.2 ∧ p.2 ≤ 1 := by
  rcases classify_ok_cases m input r h with rfl | ⟨classes, text_vector, hle, hne, hok⟩
  · exact fallbackResult_bounds _
  · rw [hcl] at hle
    injection hle with hle
    subst hle
    have hpv : probVec (vecMean categoryCodes.length
        (collectPreds categoryCodes ([m.muril, m.bilstm, m.lgb].filterMap id)
          text_vector)) := by
      apply probVec_vecMean
      · intro hcon
        rw [hcon] at hne
        simp at hne
      · exact probVec_of_mem_collectPreds _ _ _ hgood
    unfold ensembleResult at hok
    split at hok
    · simp at hok
    · injection hok with h2
      subst h2
      constructor
      · apply List.map_fst_zip
        rw [length_vecMean]
      · rintro ⟨a, b⟩ hab
        exact hpv b (List.of_mem_zip hab).2

/-- Witness for `C2_probability_table` at a concrete ensemble response. -/
theorem C2_probability_table_witness :
    res7.all_probabilities.map Prod.fst = categoryCodes ∧
    ∀ p ∈ res7.all_probabilities, 0 ≤ p.2 ∧ p.2 ≤ 1 := by
  refine C2_probability_table cfg7 "abc" res7 rfl ?_ (by with_unfolding_all rfl)
  intro a ha
  simp only [cfg7, List.filterMap_cons, id, List.filterMap_nil, List.mem_cons,
    List.not_mem_nil, or_false] at ha
  rcases ha with rfl | rfl <;>
    · intro v q hq
      simp only [get_predictions] at hq
      injection hq with hq
      subst hq
      unfold probVec
      exact of_decide_eq_true (by with_unfolding_all rfl)

/-- Counterexample to C2 as stated: a raw precomputed array artifact with
entries outside `[0, 1]` is used as-is, so the 200 response carries
probabilities 2 and -1. -/
theorem C2_counterexample :
    classify cfgB "abc" = Response.ok resB ∧
    resB.all_probabilities.all (fun p => decide (0 ≤ p.2 ∧ p.2 ≤ 1)) = false :=
  ⟨by with_unfolding_all rfl, by with_unfolding_all rfl⟩

/-- C3 (confirmed): whenever the prediction loop collects zero vectors, the
200 response equals the specification's fallback classifier applied to the
stripped text — the ordered keyword heuristic (sports 0.85, entertainment
0.80, business 0.75, editorial 0.70, default nation 0.65, residual 0.05) —
and, since the right-hand side depends only on the text, the response is
deterministic: identical for every registry state with zero successful
attempts. -/
theorem C3_fallback_path (m : Models) (vectorize : List Char → Option Vec)
    (classes : List String) (input : String) (text_vector : Vec)
    (hv : m.vectorizer = some vectorize) (hl : m.label_encoder = some classes)
    (hne : (pyStrip input.data).isEmpty = false)
    (hvec : vectorize (pyStrip input.data) = some text_vector)
    (hpreds : collectPreds classes ([m.muril, m.bilstm, m.lgb].filterMap id)
      text_vector = []) :
    classify m input = Response.ok (fallbackSpec (pyStrip input.data)) := by
  obtain ⟨v, le, mu, bi, lg⟩ := m
  simp only at hv hl hpreds
  subst hv; subst hl
  simp [classify, hne, hvec, hpreds, fallbackResult_eq_spec]

/-- Witness for `C3_fallback_path`: a registry with no classifier
artifacts and a sports-keyword text. -/
theorem C3_fallback_path_witness :
    classify cfgNoModels "క్రీడ" = Response.ok (fallbackSpec (pyStrip "క్రీడ".data)) :=
  C3_fallback_path cfgNoModels (fun _ => some []) categoryCodes "క్రీడ" []
    rfl rfl (by with_unfolding_all rfl) rfl rfl

/-- C4 (corrected, amended): an attempt contributes no vector exactly when
the produced vector's length differs from the class count or the
probability-output call itself raises (in which case the ensemble is the
other models' vectors); but an artifact with no probability-output
capability that is not an array and whose invocation as a callable fails is
NOT skipped — it contributes the uniform vector.  See
`C4_counterexample`. -/
theorem C4_skip_conditions (classes : List String) (text_vector : Vec)
    (f : Vec → List ℚ) (arr : List ℚ) (rest : List Artifact)
    (hf : (f text_vector).length ≠ classes.length)
    (harr : arr.length ≠ classes.length) :
    attempt classes (Artifact.predictProba f) text_vector = none ∧
    attempt classes (Artifact.ndarray arr) text_vector = none ∧
    attempt classes Artifact.predictFail text_vector = none ∧
    collectPreds classes (Artifact.predictFail :: rest) text_vector
      = collectPreds classes rest text_vector ∧
    attempt classes Artifact.callableFail text_vector
      = some (List.replicate classes.length ((1 : ℚ) / (classes.length : ℚ))) := by
  refine ⟨?_, ?_, rfl, ?_, ?_⟩
  · simp [attempt, get_predictions, hf]
  · simp [attempt, get_predictions, harr]
  · simp [collectPreds, List.filterMap_cons, attempt, get_predictions]
  · simp [attempt, get_predictions]

/-- Witness for `C4_skip_conditions` with concrete length-3 vectors
against the five category codes. -/
theorem C4_skip_conditions_witness :
    attempt categoryCodes (Artifact.predictProba (fun _ => [1, 2, 3])) [] = none ∧
    attempt categoryCodes (Artifact.ndarray [1, 2, 3]) [] = none ∧
    attempt categoryCodes Artifact.predictFail [] = none ∧
    collectPreds categoryCodes (Artifact.predictFail :: []) []
      = collectPreds categoryCodes [] [] ∧
    attempt categoryCodes Artifact.callableFail []
      = some (List.replicate categoryCodes.length ((1 : ℚ) / (categoryCodes.length : ℚ))) :=
  C4_skip_conditions categoryCodes [] (fun _ => [1, 2, 3]) [1, 2, 3] []
    (by decide) (by decide)

/-- Counterexample to C4 as stated: a failing callable's attempt is not
skipped — it yields the uniform vector, and the response comes from the
ensemble over that vector (confidence 1/5), not from the fallback
heuristic (which would give confidence 0.65 on this text). -/
theorem C4_counterexample :
    attempt categoryCodes Artifact.callableFail [] = some [1/5, 1/5, 1/5, 1/5, 1/5] ∧
    classify cfgU "abc" = Response.ok resU :=
  ⟨by with_unfolding_all rfl, by with_unfolding_all rfl⟩

/-- C7 (confirmed): for the spec's two mock classifiers, the ensemble
aggregation is the element-wise mean `[0.15, 0.15, 0.15, 0.15, 0.4]`, the
arg-max index is 4, and `/classify` returns the class-list label at index 4
("sports") with confidence 0.4. -/
theorem C7_ensemble_scenario :
    vecMean 5 [[0.1, 0.1, 0.1, 0.1, 0.6], [0.2, 0.2, 0.2, 0.2, 0.2]]
      = [0.15, 0.15, 0.15, 0.15, 0.4] ∧
    argmax [(0.15 : ℚ), 0.15, 0.15, 0.15, 0.4] = 4 ∧
    classify cfg7 "abc" = Response.ok res7 :=
  ⟨by with_unfolding_all rfl, by with_unfolding_all rfl, by with_unfolding_all rfl⟩

/-- C10 (confirmed): for an artifact with no `predict_proba`, not an
array, and whose invocation raises, `get_predictions` returns the uniform
vector (every entry `1/num_classes`, length the number of label-encoder
classes); it passes the length check of the prediction loop and is
included in `all_predictions` rather than skipped. -/
theorem C10_uniform_included (classes : List String) (text_vector : Vec)
    (a2 a3 : Option Artifact) :
    get_predictions classes Artifact.callableFail text_vector
      = some (List.replicate classes.length ((1 : ℚ) / (classes.length : ℚ))) ∧
    attempt classes Artifact.callableFail text_vector
      = some (List.replicate classes.length ((1 : ℚ) / (classes.length : ℚ))) ∧
    List.replicate classes.length ((1 : ℚ) / (classes.length : ℚ))
      ∈ collectPreds classes ([some Artifact.callableFail, a2, a3].filterMap id)
          text_vector := by
  have ha : attempt classes Artifact.callableFail text_vector
      = some (List.replicate classes.length ((1 : ℚ) / (classes.length : ℚ))) := by
    simp [attempt, get_predictions]
  refine ⟨rfl, ha, ?_⟩
  have hlist : [some Artifact.callableFail, a2, a3].filterMap id
      = Artifact.callableFail :: [a2, a3].filterMap id := by
    simp [List.filterMap_cons]
  rw [hlist]
  simp only [collectPreds, List.filterMap_cons, ha]
  exact List.mem_cons_self _ _

end TeluguClassifier
